import Mathlib

/-!
Verification of llauncher's core: the argument builder (`buildArgs` over the
`LlamaConfig` record) and the process supervisor's exit-code mapping and
signal relay, shallowly embedded from `llauncher.go`.
-/

/--
Model of a Go `float64` field as it is observed by `buildArgs`:
the builder only ever asks two questions of a float field, whether
`reflect.Value.IsZero` holds (which for floats is `math.Float64bits(v) == 0`)
and what `fmt.Sprintf("%g", v)` renders. We carry exactly those two
observations; the IEEE-754 value itself is not needed by any claim settled
against this embedding.
-/
structure GoFloat64 where
  bitsZero : Bool
  fmtG : String

/-- The zero value of a Go `float64` (`0.0`): its bits are zero. -/
def GoFloat64.zero : GoFloat64 :=
  { bitsZero := true, fmtG := "0" }

/--
A field value as seen through reflection in `buildArgs`
(`field.Kind()` dispatch). The constructors mirror the `reflect.Kind`
cases the switch handles; `unsupported` stands for any kind outside the
closed set, carrying the kind's name (used in the error message) and
whether the value is its kind's zero value (checked before the switch).
-/
inductive GoValue where
  | bool (b : Bool)
  | str (s : String)
  | int (i : Int)
  | float (f : GoFloat64)
  | strList (l : List String)
  | unsupported (kindName : String) (zero : Bool)

/--
`reflect.Value.IsZero` for the kinds above: `false` for bools, `""` for
strings, `0` for ints, zero bits for floats. For slices Go checks
`IsNil`; we model a `[]string` field as a `List String` and treat the
empty list as zero — an empty non-nil slice is not skipped by the Go
code but its per-element loop appends nothing, so the built argument
vector is identical either way.
-/
def isZeroVal : GoValue → Bool
  | .bool b => !b
  | .str s => s == ""
  | .int i => i == 0
  | .float f => f.bitsZero
  | .strList l => l.isEmpty
  | .unsupported _ z => z

/--
The field loop of `buildArgs` (llauncher.go lines 388-427): for each
field in declared order, skip it if it is the zero value, otherwise
append tokens according to its kind; an unsupported kind aborts with
the error `"unsupported config field type: <kind>"`.
-/
def buildArgsAux : List (String × GoValue) → List String → Except String (List String)
  | [], acc => .ok acc
  | (argTag, v) :: rest, acc =>
    if isZeroVal v then
      buildArgsAux rest acc
    else
      match v with
      | .bool b => buildArgsAux rest (acc ++ if b then [argTag] else [])
      | .str s => buildArgsAux rest (acc ++ [argTag, s])
      | .int i => buildArgsAux rest (acc ++ [argTag, toString i])
      | .float f => buildArgsAux rest (acc ++ [argTag, f.fmtG])
      | .strList l => buildArgsAux rest (acc ++ l.flatMap (fun e => [argTag, e]))
      | .unsupported kindName _ => .error ("unsupported config field type: " ++ kindName)

/--
The `LlamaConfig` struct (llauncher.go lines 25-220), fields in their
Go declaration order, each defaulting to its Go zero value. Two field
names are spelled slightly differently from the Go source for lexical
reasons: `ApiPfx` embeds the Go field tagged `--api-pre` ++ `fix`, and
`LogPfx` the one tagged `--log-pre` ++ `fix`.
-/
structure LlamaConfig where
  Host : String := ""
  Port : Int := 0
  Path : String := ""
  ApiPfx : String := ""
  NoWebUI : Bool := false
  Timeout : Int := 0
  ThreadsHTTP : Int := 0
  Props : Bool := false
  ModelPath : String := ""
  ModelUrl : String := ""
  HfRepo : String := ""
  HfRepoDraft : String := ""
  HfRepoV : String := ""
  HfFile : String := ""
  HfFileV : String := ""
  HfToken : String := ""
  Offline : Bool := false
  Alias : String := ""
  Threads : Int := 0
  ThreadsBatch : Int := 0
  CpuMask : String := ""
  CpuMaskBatch : String := ""
  CpuRange : String := ""
  CpuRangeBatch : String := ""
  CpuStrict : Int := 0
  CpuStrictBatch : Int := 0
  Priority : Int := 0
  PriorityBatch : Int := 0
  Poll : Int := 0
  PollBatch : Int := 0
  BatchSize : Int := 0
  UBatchSize : Int := 0
  GpuLayers : Int := 0
  SplitMode : String := ""
  TensorSplit : String := ""
  MainGPU : Int := 0
  Numa : String := ""
  Device : String := ""
  NoPerf : Bool := false
  Parallel : Int := 0
  ContextSize : Int := 0
  FlashAttn : Bool := false
  Mlock : Bool := false
  NoMMap : Bool := false
  CacheTypeK : String := ""
  CacheTypeKDraft : String := ""
  CacheTypeV : String := ""
  CacheTypeVDraft : String := ""
  CacheReuse : Int := 0
  SwaFull : Bool := false
  KvUnified : Bool := false
  NoKvOffload : Bool := false
  NoRepack : Bool := false
  NoOpOffload : Bool := false
  RopeScaling : String := ""
  RopeScale : GoFloat64 := GoFloat64.zero
  RopeFreqBase : GoFloat64 := GoFloat64.zero
  RopeFreqScale : GoFloat64 := GoFloat64.zero
  YarnOrigCtx : Int := 0
  YarnExtFactor : GoFloat64 := GoFloat64.zero
  YarnAttnFactor : GoFloat64 := GoFloat64.zero
  YarnBetaSlow : GoFloat64 := GoFloat64.zero
  YarnBetaFast : GoFloat64 := GoFloat64.zero
  CpuMoe : Bool := false
  NCpuMoe : String := ""
  OverrideTensor : String := ""
  OverrideTensorDraft : String := ""
  OverrideKv : String := ""
  Seed : Int := 0
  Samplers : String := ""
  SamplerSeq : String := ""
  IgnoreEOS : Bool := false
  Temperature : GoFloat64 := GoFloat64.zero
  TopK : Int := 0
  TopP : GoFloat64 := GoFloat64.zero
  MinP : GoFloat64 := GoFloat64.zero
  TopNSigma : GoFloat64 := GoFloat64.zero
  Typical : GoFloat64 := GoFloat64.zero
  RepeatLastN : Int := 0
  RepeatPenalty : GoFloat64 := GoFloat64.zero
  PresencePenalty : GoFloat64 := GoFloat64.zero
  FrequencyPenalty : GoFloat64 := GoFloat64.zero
  Mirostat : Int := 0
  MirostatLR : GoFloat64 := GoFloat64.zero
  MirostatEnt : GoFloat64 := GoFloat64.zero
  XtcProbability : GoFloat64 := GoFloat64.zero
  XtcThreshold : GoFloat64 := GoFloat64.zero
  DryMultiplier : GoFloat64 := GoFloat64.zero
  DryBase : GoFloat64 := GoFloat64.zero
  DryAllowedLen : Int := 0
  DryPenaltyLastN : Int := 0
  DrySequenceBreaker : String := ""
  DynaTempRange : GoFloat64 := GoFloat64.zero
  DynaTempExp : GoFloat64 := GoFloat64.zero
  Grammar : String := ""
  GrammarFile : String := ""
  JsonSchema : String := ""
  JsonSchemaFile : String := ""
  Escape : Bool := false
  NoEscape : Bool := false
  SpmInfill : Bool := false
  LoraAdapters : List String := []
  LoraScaled : List String := []
  LoraInitWithoutApply : Bool := false
  ControlVector : List String := []
  ControlVectorScaled : List String := []
  ControlVectorLayerRange : String := ""
  MmProj : String := ""
  MmProjUrl : String := ""
  NoMmProj : Bool := false
  NoMmProjOffload : Bool := false
  ContBatching : Bool := false
  NoContBatching : Bool := false
  Metrics : Bool := false
  Slots : Bool := false
  NoSlots : Bool := false
  SlotSavePath : String := ""
  SlotPromptSimilarity : GoFloat64 := GoFloat64.zero
  SwaCheckpoints : Int := 0
  ApiKey : String := ""
  ApiKeyFile : String := ""
  SslKeyFile : String := ""
  SslCertFile : String := ""
  ChatTemplate : String := ""
  ChatTemplateFile : String := ""
  ChatTemplateKwargs : String := ""
  Jinja : Bool := false
  NoPrefillAssistant : Bool := false
  ReasoningFormat : String := ""
  ReasoningBudget : Int := 0
  Embeddings : Bool := false
  Reranking : Bool := false
  Pooling : String := ""
  CheckTensors : Bool := false
  LogitBias : String := ""
  ModelVocoder : String := ""
  TTSUseGuideTokens : Bool := false
  Verbose : Bool := false
  LogDisable : Bool := false
  LogFile : String := ""
  LogColors : Bool := false
  LogVerbosity : Int := 0
  LogPfx : Bool := false
  LogTimestamps : Bool := false
  Predict : Int := 0
  ReversePrompt : String := ""
  Special : Bool := false
  NoWarmup : Bool := false
  NoContextShift : Bool := false
  ContextShift : Bool := false
  Keep : Int := 0
  ModelDraft : String := ""
  ThreadsDraft : Int := 0
  ThreadsBatchDraft : Int := 0
  ContextSizeDraft : Int := 0
  DeviceDraft : String := ""
  GpuLayersDraft : Int := 0
  DraftMax : Int := 0
  DraftMin : Int := 0
  DraftPMin : GoFloat64 := GoFloat64.zero
  SpecReplace : String := ""

/--
The reflection walk of `buildArgs` made explicit: the `arg` tag and the
value of every `LlamaConfig` field, in the struct's declaration order
(every field of the struct carries an `arg` tag, so none is skipped by
the empty-tag check).
-/
def fieldsOf (c : LlamaConfig) : List (String × GoValue) :=
  [ ("--host", GoValue.str c.Host),
    ("--port", GoValue.int c.Port),
    ("--path", GoValue.str c.Path),
    ("--api-prefix", GoValue.str c.ApiPfx),
    ("--no-webui", GoValue.bool c.NoWebUI),
    ("--timeout", GoValue.int c.Timeout),
    ("--threads-http", GoValue.int c.ThreadsHTTP),
    ("--props", GoValue.bool c.Props),
    ("--model", GoValue.str c.ModelPath),
    ("--model-url", GoValue.str c.ModelUrl),
    ("--hf-repo", GoValue.str c.HfRepo),
    ("--hf-repo-draft", GoValue.str c.HfRepoDraft),
    ("--hf-repo-v", GoValue.str c.HfRepoV),
    ("--hf-file", GoValue.str c.HfFile),
    ("--hf-file-v", GoValue.str c.HfFileV),
    ("--hf-token", GoValue.str c.HfToken),
    ("--offline", GoValue.bool c.Offline),
    ("--alias", GoValue.str c.Alias),
    ("--threads", GoValue.int c.Threads),
    ("--threads-batch", GoValue.int c.ThreadsBatch),
    ("--cpu-mask", GoValue.str c.CpuMask),
    ("--cpu-mask-batch", GoValue.str c.CpuMaskBatch),
    ("--cpu-range", GoValue.str c.CpuRange),
    ("--cpu-range-batch", GoValue.str c.CpuRangeBatch),
    ("--cpu-strict", GoValue.int c.CpuStrict),
    ("--cpu-strict-batch", GoValue.int c.CpuStrictBatch),
    ("--prio", GoValue.int c.Priority),
    ("--prio-batch", GoValue.int c.PriorityBatch),
    ("--poll", GoValue.int c.Poll),
    ("--poll-batch", GoValue.int c.PollBatch),
    ("--batch-size", GoValue.int c.BatchSize),
    ("--ubatch-size", GoValue.int c.UBatchSize),
    ("--n-gpu-layers", GoValue.int c.GpuLayers),
    ("--split-mode", GoValue.str c.SplitMode),
    ("--tensor-split", GoValue.str c.TensorSplit),
    ("--main-gpu", GoValue.int c.MainGPU),
    ("--numa", GoValue.str c.Numa),
    ("--device", GoValue.str c.Device),
    ("--no-perf", GoValue.bool c.NoPerf),
    ("--parallel", GoValue.int c.Parallel),
    ("--ctx-size", GoValue.int c.ContextSize),
    ("--flash-attn", GoValue.bool c.FlashAttn),
    ("--mlock", GoValue.bool c.Mlock),
    ("--no-mmap", GoValue.bool c.NoMMap),
    ("--cache-type-k", GoValue.str c.CacheTypeK),
    ("--cache-type-k-draft", GoValue.str c.CacheTypeKDraft),
    ("--cache-type-v", GoValue.str c.CacheTypeV),
    ("--cache-type-v-draft", GoValue.str c.CacheTypeVDraft),
    ("--cache-reuse", GoValue.int c.CacheReuse),
    ("--swa-full", GoValue.bool c.SwaFull),
    ("--kv-unified", GoValue.bool c.KvUnified),
    ("--no-kv-offload", GoValue.bool c.NoKvOffload),
    ("--no-repack", GoValue.bool c.NoRepack),
    ("--no-op-offload", GoValue.bool c.NoOpOffload),
    ("--rope-scaling", GoValue.str c.RopeScaling),
    ("--rope-scale", GoValue.float c.RopeScale),
    ("--rope-freq-base", GoValue.float c.RopeFreqBase),
    ("--rope-freq-scale", GoValue.float c.RopeFreqScale),
    ("--yarn-orig-ctx", GoValue.int c.YarnOrigCtx),
    ("--yarn-ext-factor", GoValue.float c.YarnExtFactor),
    ("--yarn-attn-factor", GoValue.float c.YarnAttnFactor),
    ("--yarn-beta-slow", GoValue.float c.YarnBetaSlow),
    ("--yarn-beta-fast", GoValue.float c.YarnBetaFast),
    ("--cpu-moe", GoValue.bool c.CpuMoe),
    ("--n-cpu-moe", GoValue.str c.NCpuMoe),
    ("--override-tensor", GoValue.str c.OverrideTensor),
    ("--override-tensor-draft", GoValue.str c.OverrideTensorDraft),
    ("--override-kv", GoValue.str c.OverrideKv),
    ("--seed", GoValue.int c.Seed),
    ("--samplers", GoValue.str c.Samplers),
    ("--sampler-seq", GoValue.str c.SamplerSeq),
    ("--ignore-eos", GoValue.bool c.IgnoreEOS),
    ("--temp", GoValue.float c.Temperature),
    ("--top-k", GoValue.int c.TopK),
    ("--top-p", GoValue.float c.TopP),
    ("--min-p", GoValue.float c.MinP),
    ("--top-nsigma", GoValue.float c.TopNSigma),
    ("--typical", GoValue.float c.Typical),
    ("--repeat-last-n", GoValue.int c.RepeatLastN),
    ("--repeat-penalty", GoValue.float c.RepeatPenalty),
    ("--presence-penalty", GoValue.float c.PresencePenalty),
    ("--frequency-penalty", GoValue.float c.FrequencyPenalty),
    ("--mirostat", GoValue.int c.Mirostat),
    ("--mirostat-lr", GoValue.float c.MirostatLR),
    ("--mirostat-ent", GoValue.float c.MirostatEnt),
    ("--xtc-probability", GoValue.float c.XtcProbability),
    ("--xtc-threshold", GoValue.float c.XtcThreshold),
    ("--dry-multiplier", GoValue.float c.DryMultiplier),
    ("--dry-base", GoValue.float c.DryBase),
    ("--dry-allowed-length", GoValue.int c.DryAllowedLen),
    ("--dry-penalty-last-n", GoValue.int c.DryPenaltyLastN),
    ("--dry-sequence-breaker", GoValue.str c.DrySequenceBreaker),
    ("--dynatemp-range", GoValue.float c.DynaTempRange),
    ("--dynatemp-exp", GoValue.float c.DynaTempExp),
    ("--grammar", GoValue.str c.Grammar),
    ("--grammar-file", GoValue.str c.GrammarFile),
    ("--json-schema", GoValue.str c.JsonSchema),
    ("--json-schema-file", GoValue.str c.JsonSchemaFile),
    ("--escape", GoValue.bool c.Escape),
    ("--no-escape", GoValue.bool c.NoEscape),
    ("--spm-infill", GoValue.bool c.SpmInfill),
    ("--lora", GoValue.strList c.LoraAdapters),
    ("--lora-scaled", GoValue.strList c.LoraScaled),
    ("--lora-init-without-apply", GoValue.bool c.LoraInitWithoutApply),
    ("--control-vector", GoValue.strList c.ControlVector),
    ("--control-vector-scaled", GoValue.strList c.ControlVectorScaled),
    ("--control-vector-layer-range", GoValue.str c.ControlVectorLayerRange),
    ("--mmproj", GoValue.str c.MmProj),
    ("--mmproj-url", GoValue.str c.MmProjUrl),
    ("--no-mmproj", GoValue.bool c.NoMmProj),
    ("--no-mmproj-offload", GoValue.bool c.NoMmProjOffload),
    ("--cont-batching", GoValue.bool c.ContBatching),
    ("--no-cont-batching", GoValue.bool c.NoContBatching),
    ("--metrics", GoValue.bool c.Metrics),
    ("--slots", GoValue.bool c.Slots),
    ("--no-slots", GoValue.bool c.NoSlots),
    ("--slot-save-path", GoValue.str c.SlotSavePath),
    ("--slot-prompt-similarity", GoValue.float c.SlotPromptSimilarity),
    ("--swa-checkpoints", GoValue.int c.SwaCheckpoints),
    ("--api-key", GoValue.str c.ApiKey),
    ("--api-key-file", GoValue.str c.ApiKeyFile),
    ("--ssl-key-file", GoValue.str c.SslKeyFile),
    ("--ssl-cert-file", GoValue.str c.SslCertFile),
    ("--chat-template", GoValue.str c.ChatTemplate),
    ("--chat-template-file", GoValue.str c.ChatTemplateFile),
    ("--chat-template-kwargs", GoValue.str c.ChatTemplateKwargs),
    ("--jinja", GoValue.bool c.Jinja),
    ("--no-prefill-assistant", GoValue.bool c.NoPrefillAssistant),
    ("--reasoning-format", GoValue.str c.ReasoningFormat),
    ("--reasoning-budget", GoValue.int c.ReasoningBudget),
    ("--embeddings", GoValue.bool c.Embeddings),
    ("--reranking", GoValue.bool c.Reranking),
    ("--pooling", GoValue.str c.Pooling),
    ("--check-tensors", GoValue.bool c.CheckTensors),
    ("--logit-bias", GoValue.str c.LogitBias),
    ("--model-vocoder", GoValue.str c.ModelVocoder),
    ("--tts-use-guide-tokens", GoValue.bool c.TTSUseGuideTokens),
    ("--log-verbose", GoValue.bool c.Verbose),
    ("--log-disable", GoValue.bool c.LogDisable),
    ("--log-file", GoValue.str c.LogFile),
    ("--log-colors", GoValue.bool c.LogColors),
    ("--log-verbosity", GoValue.int c.LogVerbosity),
    ("--log-prefix", GoValue.bool c.LogPfx),
    ("--log-timestamps", GoValue.bool c.LogTimestamps),
    ("--n-predict", GoValue.int c.Predict),
    ("--reverse-prompt", GoValue.str c.ReversePrompt),
    ("--special", GoValue.bool c.Special),
    ("--no-warmup", GoValue.bool c.NoWarmup),
    ("--no-context-shift", GoValue.bool c.NoContextShift),
    ("--context-shift", GoValue.bool c.ContextShift),
    ("--keep", GoValue.int c.Keep),
    ("--model-draft", GoValue.str c.ModelDraft),
    ("--threads-draft", GoValue.int c.ThreadsDraft),
    ("--threads-batch-draft", GoValue.int c.ThreadsBatchDraft),
    ("--ctx-size-draft", GoValue.int c.ContextSizeDraft),
    ("--device-draft", GoValue.str c.DeviceDraft),
    ("--n-gpu-layers-draft", GoValue.int c.GpuLayersDraft),
    ("--draft-max", GoValue.int c.DraftMax),
    ("--draft-min", GoValue.int c.DraftMin),
    ("--draft-p-min", GoValue.float c.DraftPMin),
    ("--spec-replace", GoValue.str c.SpecReplace) ]

/-- `buildArgs` (llauncher.go lines 382-430): walk the fields in declared
order, accumulating argument tokens, starting from the empty vector. -/
def buildArgs (c : LlamaConfig) : Except String (List String) :=
  buildArgsAux (fieldsOf c) []

/-- The tokens a single supported field contributes to the argument
vector (the per-field effect of one loop iteration of `buildArgs`);
an unsupported field contributes none (it aborts the build instead). -/
def GoValue.tokens (argTag : String) : GoValue → List String
  | .bool b => if b then [argTag] else []
  | .str s => if s == "" then [] else [argTag, s]
  | .int i => if i == 0 then [] else [argTag, toString i]
  | .float f => if f.bitsZero then [] else [argTag, f.fmtG]
  | .strList l => l.flatMap (fun e => [argTag, e])
  | .unsupported _ _ => []

/-- Whether a field's kind is in the closed set the switch of
`buildArgs` handles. -/
def GoValue.supported : GoValue → Bool
  | .unsupported _ _ => false
  | _ => true

/-- The full argument vector as the concatenation of the per-field
token lists, in declared field order. -/
def configTokens (c : LlamaConfig) : List String :=
  (fieldsOf c).flatMap (fun p => GoValue.tokens p.1 p.2)

/--
The error `cmd.Run()` reports to `main`, as `main` inspects it
(llauncher.go lines 344-357): either an `exec.ExitError` carrying the
child's wait status (whose `ExitStatus()` is the value `main` passes to
`os.Exit`), or any other error (spawn failure and the like).
-/
inductive RunError where
  | exitError (exitStatus : Int)
  | otherError

/--
Step 8 of `main` (llauncher.go lines 343-361): with `none` standing for
a nil error from `cmd.Run()`, an `ExitError` makes the launcher exit
with the child's exit status, any other error exits with 1, and a nil
error falls through to the end of `main`, so the process exits 0.
-/
def mainExitCode : Option RunError → Int
  | none => 0
  | some (.exitError s) => s
  | some .otherError => 1

/--
The `os/exec` boundary at llauncher.go line 341: for a child that
terminates normally with exit code `n`, `cmd.Run()` returns a nil
error when `n = 0` and an `exec.ExitError` whose status is `n`
otherwise.
-/
def runResultOfChildExit (n : Int) : Option RunError :=
  if n = 0 then none else some (.exitError n)

/-- The termination-class signals `signal.Notify` subscribes to at
llauncher.go line 328: `syscall.SIGINT` and `syscall.SIGTERM`. -/
inductive GoSignal where
  | sigint
  | sigterm
deriving DecidableEq

/--
The signal-relay goroutine (llauncher.go lines 330-338): it performs a
single receive from `sigChan` and forwards that one signal, unchanged,
to the child, then returns. Given the sequence of termination-class
signals delivered to the parent while the child is running (in delivery
order), this is the sequence of signals the child receives from the
relay: the first delivered signal only — later deliveries land in the
size-1 channel buffer (or are dropped) with no receiver left.
-/
def forwardedSignals : List GoSignal → List GoSignal
  | [] => []
  | s :: _ => [s]

/-- Scenario A's record: `ModelPath`, `Port` and `Threads` set, every
other field at its zero value. -/
def scenarioA : LlamaConfig :=
  { ModelPath := "/m.gguf", Port := 8080, Threads := 4 }

/-- Scenario B's record: only `LoraAdapters` set. -/
def scenarioB : LlamaConfig :=
  { LoraAdapters := ["a.bin", "b.bin"] }

/-- A record whose only non-zero field is a list holding an
empty-string element. -/
def emptyElemRecord : LlamaConfig :=
  { LoraAdapters := ["", "b.bin"] }

/-- The record with every field at its zero value. -/
def zeroRecord : LlamaConfig := {}

theorem buildArgsAux_ok : ∀ (l : List (String × GoValue)) (acc : List String),
    (∀ p ∈ l, GoValue.supported p.2 = true) →
    buildArgsAux l acc = .ok (acc ++ l.flatMap (fun p => GoValue.tokens p.1 p.2)) := by
  intro l
  induction l with
  | nil => intro acc h; simp [buildArgsAux]
  | cons hd tl ih =>
    intro acc h
    obtain ⟨tag, v⟩ := hd
    have htl : ∀ p ∈ tl, GoValue.supported p.2 = true :=
      fun p hp => h p (List.mem_cons_of_mem _ hp)
    have hv : GoValue.supported v = true := h (tag, v) (List.mem_cons_self _ _)
    cases v with
    | bool b =>
      cases b <;>
        simp [buildArgsAux, isZeroVal, GoValue.tokens, ih _ htl, List.append_assoc]
    | str s =>
      by_cases hs : s = ""
      · subst hs; simp [buildArgsAux, isZeroVal, GoValue.tokens, ih _ htl]
      · simp [buildArgsAux, isZeroVal, hs, GoValue.tokens, ih _ htl, List.append_assoc]
    | int i =>
      by_cases hi : i = 0
      · subst hi; simp [buildArgsAux, isZeroVal, GoValue.tokens, ih _ htl]
      · simp [buildArgsAux, isZeroVal, hi, GoValue.tokens, ih _ htl, List.append_assoc]
    | float f =>
      obtain ⟨z, g⟩ := f
      cases z <;>
        simp [buildArgsAux, isZeroVal, GoValue.tokens, ih _ htl, List.append_assoc]
    | strList xs =>
      cases xs with
      | nil => simp [buildArgsAux, isZeroVal, GoValue.tokens, ih _ htl]
      | cons a as =>
        simp [buildArgsAux, isZeroVal, GoValue.tokens, ih _ htl, List.append_assoc]
    | unsupported k z => simp [GoValue.supported] at hv

theorem fieldsOf_supported (c : LlamaConfig) :
    ∀ p ∈ fieldsOf c, GoValue.supported p.2 = true := by
  have hall : (fieldsOf c).all (fun p => GoValue.supported p.2) = true := by
    simp [fieldsOf, GoValue.supported]
  exact fun p hp => List.all_eq_true.mp hall p hp

theorem buildArgs_eq (c : LlamaConfig) : buildArgs c = .ok (configTokens c) := by
  rw [buildArgs, configTokens, buildArgsAux_ok _ _ (fieldsOf_supported c)]
  simp

set_option maxRecDepth 10000 in
/--
Claim C1, as stated, is false: `buildArgs` renders fields in their
declared order, and in `LlamaConfig` the `Port` field (line 28) is
declared before `ModelPath` (line 37), so for the Scenario A record the
`--port` pair precedes the `--model` pair; the vector the claim gives
puts `--model` first.
-/
theorem scenarioA_spec_order_false :
    ¬ (buildArgs scenarioA =
      Except.ok ["--model", "/m.gguf", "--port", "8080", "--threads", "4"]) := by
  intro hcontra
  rw [show buildArgs scenarioA =
    Except.ok ["--port", "8080", "--model", "/m.gguf", "--threads", "4"] from rfl] at hcontra
  injection hcontra with h2
  exact absurd h2 (by decide)

set_option maxRecDepth 10000 in
/--
Claim C1 (amended): for the record with `ModelPath := "/m.gguf"`,
`Port := 8080`, `Threads := 4` and all other fields at their zero
values, `buildArgs` returns exactly
`["--port", "8080", "--model", "/m.gguf", "--threads", "4"]` — the
fields rendered in their declared order, which places `Port` before
`ModelPath` before `Threads`.
-/
theorem scenarioA_declared_order :
    buildArgs scenarioA =
      Except.ok ["--port", "8080", "--model", "/m.gguf", "--threads", "4"] := rfl

/--
Claim C2: for every child process that terminates normally with exit
code `n`, the launcher's own exit code equals `n` — exit code 0 makes
`cmd.Run()` return nil and `main` fall through to a normal (code 0)
exit, and any other code is re-raised via `os.Exit` on the
`ExitError`'s wait status.
-/
theorem exit_code_propagated (n : Int) :
    mainExitCode (runResultOfChildExit n) = n := by
  by_cases h : n = 0 <;> simp [mainExitCode, runResultOfChildExit, h]

set_option maxRecDepth 10000 in
/--
Claim C3: `buildArgs` is the concatenation of per-field token lists; a
list-of-strings field with `n` elements contributes exactly `n`
(flag name, element) pairs — `2 * n` tokens — in the elements' original
order, the flag name repeated once per element; in particular the
record with only `LoraAdapters := ["a.bin", "b.bin"]` set yields
exactly `["--lora", "a.bin", "--lora", "b.bin"]`.
-/
theorem list_field_pairs :
    (∀ c : LlamaConfig, buildArgs c = Except.ok (configTokens c)) ∧
    (∀ (tag : String) (l : List String),
      GoValue.tokens tag (GoValue.strList l) = l.flatMap (fun e => [tag, e]) ∧
      (GoValue.tokens tag (GoValue.strList l)).length = 2 * l.length) ∧
    buildArgs scenarioB = Except.ok ["--lora", "a.bin", "--lora", "b.bin"] := by
  refine ⟨buildArgs_eq, fun tag l => ⟨rfl, ?_⟩, rfl⟩
  simp only [GoValue.tokens]
  induction l with
  | nil => simp
  | cons a as ih => simp [ih]; ring

/--
Claim C4: `buildArgs` is the concatenation of per-field token lists,
and a boolean field contributes exactly one token — its external flag
name, with no value following — when true, and no token at all when
false (a false bool is its kind's zero value and is skipped).
-/
theorem bool_field_tokens :
    (∀ c : LlamaConfig, buildArgs c = Except.ok (configTokens c)) ∧
    (∀ (tag : String) (b : Bool),
      GoValue.tokens tag (GoValue.bool b) = if b then [tag] else []) := by
  exact ⟨buildArgs_eq, fun tag b => rfl⟩

set_option maxRecDepth 10000 in
/--
Claim C5: for the record with every field at its zero value, every
field is skipped by the zero-value check and `buildArgs` returns the
empty argument vector.
-/
theorem zero_record_empty : buildArgs zeroRecord = Except.ok [] := rfl

/--
Claim C6: the error branch of `buildArgs` fires only for a field whose
kind lies outside the closed set the switch handles (producing the
message naming the offending kind), and since every `LlamaConfig` field
is of a supported kind, `buildArgs` returns successfully on every
`LlamaConfig` value — the error branch is unreachable.
-/
theorem no_error_for_llama_config :
    (∀ c : LlamaConfig, ∃ args, buildArgs c = Except.ok args) ∧
    (∀ (tag kindName : String) (rest : List (String × GoValue)) (acc : List String),
      buildArgsAux ((tag, GoValue.unsupported kindName false) :: rest) acc =
        Except.error ("unsupported config field type: " ++ kindName)) := by
  refine ⟨fun c => ⟨configTokens c, buildArgs_eq c⟩, fun tag k rest acc => ?_⟩
  simp [buildArgsAux, isZeroVal]

/--
Claim C7: `buildArgs` is the concatenation of per-field token lists,
an integer field with a non-zero value contributes exactly two tokens —
the flag name, then the base-10 decimal rendering of the integer — and
the rendering of a negative integer is a leading minus sign followed by
the decimal digits of its absolute value.
-/
theorem int_field_tokens :
    (∀ c : LlamaConfig, buildArgs c = Except.ok (configTokens c)) ∧
    (∀ (tag : String) (i : Int), i ≠ 0 →
      GoValue.tokens tag (GoValue.int i) = [tag, toString i]) ∧
    (∀ i : Int, i < 0 → toString i = "-" ++ toString i.natAbs) := by
  refine ⟨buildArgs_eq, fun tag i hi => by simp [GoValue.tokens, hi], fun i hi => ?_⟩
  cases i with
  | ofNat n => exact absurd hi (Int.ofNat_nonneg n).not_lt
  | negSucc n => rfl

/-- Witness for claim C7 at the concrete input `-7`. -/
theorem int_field_tokens_witness :
    GoValue.tokens ("--port") (GoValue.int (-7)) = [("--port"), toString (-7 : Int)] ∧
    toString (-7 : Int) = "-" ++ toString (Int.natAbs (-7)) :=
  ⟨int_field_tokens.2.1 ("--port") (-7) (by decide),
   int_field_tokens.2.2 (-7) (by decide)⟩

/--
Claim C9, as stated, is false: the relay goroutine performs a single
channel receive and then returns, so when two interrupt signals are
delivered while the child is running, only the first is forwarded —
the forwarded sequence is not the delivered sequence.
-/
theorem every_signal_forwarded_false :
    forwardedSignals [GoSignal.sigint, GoSignal.sigint] ≠
      [GoSignal.sigint, GoSignal.sigint] := by
  decide

/--
Claim C9 (amended): after a successful spawn, the first interrupt or
terminate signal delivered to the parent while the child is running is
forwarded unmodified (the identical signal) to the child; signals
delivered after the first are not forwarded, because the relay
goroutine handles exactly one signal.
-/
theorem first_signal_forwarded (s : GoSignal) (rest : List GoSignal) :
    forwardedSignals (s :: rest) = [s] := rfl

set_option maxRecDepth 10000 in
/--
Claim C10: the zero-value omission check applies to a list field as a
whole, never to its elements — every element of a list field,
including empty-string elements, yields its own (flag name, element)
pair; in particular a record whose `LoraAdapters` is `["", "b.bin"]`
yields `["--lora", "", "--lora", "b.bin"]`, the empty-string element
not filtered out.
-/
theorem list_elements_not_filtered :
    (∀ (tag : String) (l : List String),
      GoValue.tokens tag (GoValue.strList l) = l.flatMap (fun e => [tag, e])) ∧
    buildArgs emptyElemRecord = Except.ok ["--lora", "", "--lora", "b.bin"] :=
  ⟨fun _ _ => rfl, rfl⟩
